import Mathlib

/-!
Shallow embedding of the QTrackr transit-bot core (src/bot.py and src/track.py).

Strings are manipulated through their underlying character lists so that every
definition evaluates by kernel reduction.  Python truthiness of optional
protobuf fields is modelled with `Option` (an unset-or-zero timestamp is
`none`, absent text is the empty string).  Timestamps are epoch seconds as
`Int`; `datetime.fromtimestamp(..).astimezone()` is order-isomorphic to the
epoch value, so datetime comparisons become integer comparisons.  Character
classes of Python's `re` module (`\d`, `\s`, `\w`, `[A-Za-z]`) are modelled at
ASCII level.
-/

/-- Prefix test over character lists (one position of a substring search). -/
def charsPrefix : List Char → List Char → Bool
  | [], _ => true
  | _ :: _, [] => false
  | a :: as, b :: bs => a = b && charsPrefix as bs

/-- Substring containment over character lists. -/
def charsContains (needle : List Char) : List Char → Bool
  | [] => needle.isEmpty
  | c :: rest => charsPrefix needle (c :: rest) || charsContains needle rest

/-- Python's `needle in hay` on strings. -/
def containsSub (hay needle : String) : Bool := charsContains needle.data hay.data

/-- Python's `str.lower()` (ASCII model). -/
def strLower (s : String) : String := ⟨s.data.map Char.toLower⟩

/-- Python's whitespace class for `str.strip()` and `\s` (ASCII model). -/
def isPyWhitespace (c : Char) : Bool :=
  c = ' ' || c = '\t' || c = '\n' || c = '\r' || c = '\x0b' || c = '\x0c'

/-- Python's `str.strip()`. -/
def strTrim (s : String) : String :=
  ⟨((s.data.dropWhile isPyWhitespace).reverse.dropWhile isPyWhitespace).reverse⟩

/-- Lexicographic strict order on character lists: Python string `<`. -/
def charListLt : List Char → List Char → Bool
  | [], [] => false
  | [], _ :: _ => true
  | _ :: _, [] => false
  | a :: as, b :: bs => if a < b then true else if b < a then false else charListLt as bs

/-- Python string `<=` (used for the `YYYYMMDD` date-range comparisons). -/
def pyStrLe (a b : String) : Bool := !(charListLt b.data a.data)

/-- A Gregorian calendar date, as in Python's `datetime.date`. -/
structure Date where
  year : Nat
  month : Nat
  day : Nat
deriving DecidableEq, Repr

/-- Gregorian leap-year test. -/
def isLeap (y : Nat) : Bool := y % 4 = 0 && (y % 100 ≠ 0 || y % 400 = 0)

/-- Number of days in a month of a given year. -/
def daysInMonth (y m : Nat) : Nat :=
  if m = 2 then (if isLeap y then 29 else 28)
  else if m = 4 || m = 6 || m = 9 || m = 11 then 30
  else 31

/-- Validity of a (year, month, day) triple for Python's `datetime.date`. -/
def validDate (y m d : Nat) : Bool :=
  1 ≤ y && y ≤ 9999 && 1 ≤ m && m ≤ 12 && 1 ≤ d && d ≤ daysInMonth y m

/-- Day number of a date (standard civil-from-days bijection); date comparison
and `timedelta` day arithmetic of Python become arithmetic on this value. -/
def rataDie (dt : Date) : Nat :=
  let y := if dt.month ≤ 2 then dt.year - 1 else dt.year
  let era := y / 400
  let yoe := y % 400
  let mp := if 2 < dt.month then dt.month - 3 else dt.month + 9
  let doy := (153 * mp + 2) / 5 + (dt.day - 1)
  let doe := yoe * 365 + yoe / 4 + doy - yoe / 100
  era * 146097 + doe

/-- Python's `date.replace(year=..)`: raises (here `none`) on an invalid
result such as Feb 29 mapped to a non-leap year. -/
def replaceYear (dt : Date) (y : Nat) : Option Date :=
  if validDate y dt.month dt.day then some ⟨y, dt.month, dt.day⟩ else none

/-- Word character for the `\b` boundary of the date regex (ASCII model). -/
def isWordChar (c : Char) : Bool := c.isAlphanum || c = '_'

/-- Numeric value of a digit string. -/
def natOfDigits (ds : List Char) : Nat := ds.foldl (fun n c => 10 * n + (c.toNat - 48)) 0

/-- One anchored attempt of the pattern
`\b(\d{1,2})\s+([A-Za-z]+)(?:\s+(\d{4}))?` (src/bot.py line 346), the `\b`
being checked by the caller.  Returns day value, month token and optional
4-digit year.  Three or more leading digits fail both alternatives of
`\d{1,2}` because `\s+` then faces a digit. -/
def matchDateAt (cs : List Char) : Option (Nat × String × Option Nat) :=
  let ds := cs.takeWhile Char.isDigit
  let r1 := cs.dropWhile Char.isDigit
  if ds.length = 0 || 2 < ds.length then none
  else
    let ws := r1.takeWhile isPyWhitespace
    let r2 := r1.dropWhile isPyWhitespace
    if ws.length = 0 then none
    else
      let ls := r2.takeWhile Char.isAlpha
      let r3 := r2.dropWhile Char.isAlpha
      if ls.length = 0 then none
      else
        let yearOpt : Option Nat :=
          let ws2 := r3.takeWhile isPyWhitespace
          let r4 := r3.dropWhile isPyWhitespace
          if ws2.length = 0 then none
          else match r4 with
            | a :: b :: c :: d :: _ =>
              if a.isDigit && b.isDigit && c.isDigit && d.isDigit then
                some (natOfDigits [a, b, c, d])
              else none
            | _ => none
        some (natOfDigits ds, ⟨ls⟩, yearOpt)

/-- Leftmost `re.search` scan; the flag says whether a `\b` boundary holds at
the current position (start of text, or previous char not a word char). -/
def searchDateAux : List Char → Bool → Option (Nat × String × Option Nat)
  | [], _ => none
  | c :: rest, bnd =>
    match (if bnd then matchDateAt (c :: rest) else none) with
    | some r => some r
    | none => searchDateAux rest (!(isWordChar c))

/-- `re.search` of the day-month-year pattern over a string. -/
def searchDatePattern (s : String) : Option (Nat × String × Option Nat) :=
  searchDateAux s.data true

/-- Month number from a month token: full names (`%B`) then abbreviations
(`%b`), case-insensitively, as Python's `strptime` matches them. -/
def monthFromName (s : String) : Option Nat :=
  let l := strLower s
  if l = "january" then some 1 else if l = "february" then some 2
  else if l = "march" then some 3 else if l = "april" then some 4
  else if l = "may" then some 5 else if l = "june" then some 6
  else if l = "july" then some 7 else if l = "august" then some 8
  else if l = "september" then some 9 else if l = "october" then some 10
  else if l = "november" then some 11 else if l = "december" then some 12
  else if l = "jan" then some 1 else if l = "feb" then some 2
  else if l = "mar" then some 3 else if l = "apr" then some 4
  else if l = "jun" then some 6 else if l = "jul" then some 7
  else if l = "aug" then some 8 else if l = "sep" then some 9
  else if l = "oct" then some 10 else if l = "nov" then some 11
  else if l = "dec" then some 12 else none

/-- Model of `datetime.strptime(f"{day} {month_name} {year}", "%d %B %Y")`
with the `%d %b %Y` retry (src/bot.py lines 353-360): `%d` accepts days 1-31,
`%Y` exactly four digits (so 1000 ≤ year), and the `date` constructor
validates the triple.  Any failure raises `ValueError`, here `none`. -/
def strptimeDate (day : Nat) (monthName : String) (year : Nat) : Option Date :=
  match monthFromName monthName with
  | none => none
  | some m => if 1000 ≤ year && validDate year m day then some ⟨year, m, day⟩ else none

/-- The explicit-date extraction of classify's step 2 (src/bot.py lines
343-367): regex search, strptime with the current year when the year is
omitted, and the roll-forward of dates more than 180 days in the past.  A
`ValueError` from `replace` is caught and yields `none`. -/
def find_explicit_date (full_text : String) (today : Date) : Option Date :=
  match searchDatePattern full_text with
  | none => none
  | some (day, monthName, yearOpt) =>
    let year := yearOpt.getD today.year
    match strptimeDate day monthName year with
    | none => none
    | some parsed =>
      if rataDie parsed + 180 < rataDie today then replaceYear parsed (parsed.year + 1)
      else some parsed

/-- Active/upcoming flags from the textual fallback (src/bot.py lines
369-373): date ≤ today is active, today < date ≤ today + 7 days upcoming. -/
def fallbackFlags (full_text : String) (today : Date) : Bool × Bool :=
  match find_explicit_date full_text today with
  | none => (false, false)
  | some ed =>
    if rataDie ed ≤ rataDie today then (true, false)
    else if rataDie ed ≤ rataDie today + 7 then (false, true)
    else (false, false)

/-- One GTFS-RT translation. -/
structure Translation where
  text : String
deriving DecidableEq, Repr

/-- GTFS-RT `TranslatedString`. -/
structure TranslatedText where
  translation : List Translation
deriving DecidableEq, Repr

/-- GTFS-RT `TimeRange`; `none` models an unset (or zero, hence Python-falsy)
timestamp. -/
structure ActivePeriod where
  start : Option Int
  end_ : Option Int
deriving DecidableEq, Repr

/-- GTFS-RT `Alert.Effect` enumeration. -/
inductive Effect
  | NO_SERVICE
  | REDUCED_SERVICE
  | SIGNIFICANT_DELAYS
  | DETOUR
  | ADDITIONAL_SERVICE
  | MODIFIED_SERVICE
  | OTHER_EFFECT
  | UNKNOWN_EFFECT
  | STOP_MOVED
  | NO_EFFECT
  | ACCESSIBILITY_ISSUE
deriving DecidableEq, Repr

/-- A GTFS-RT alert, restricted to the fields read by the classifier and the
status scan (`informed_entity` is consumed only by the route-grouping code and
`url` only by the debug links, both outside the embedded scope). -/
structure Alert where
  header_text : Option TranslatedText
  description_text : Option TranslatedText
  active_period : List ActivePeriod
  effect : Effect
deriving DecidableEq, Repr

/-- The exception-guarded text extraction used throughout src/bot.py: absent
message, empty translation list or empty first translation all give `""`. -/
def getText : Option TranslatedText → String
  | none => ""
  | some tt =>
    match tt.translation with
    | [] => ""
    | tr :: _ => tr.text

/-- `(header_text + " " + desc_text).strip()`. -/
def alertFullText (a : Alert) : String :=
  strTrim (getText a.header_text ++ " " ++ getText a.description_text)

/-- The closure keyword list of src/bot.py lines 395-402. -/
def closureKeywords : List String :=
  ["track closure", "track closures", "rail closure", "no trains",
   "no train services", "bus replacement"]

/-- `any(k in text_lower for k in closure_keywords)`. -/
def hasClosureWords (a : Alert) : Bool :=
  closureKeywords.any (fun k => containsSub (strLower (alertFullText a)) k)

/-- Membership in the fixed closure-effect set of src/bot.py lines 407-413. -/
def effectIsClosure : Effect → Bool
  | .NO_SERVICE => true
  | .REDUCED_SERVICE => true
  | .DETOUR => true
  | .MODIFIED_SERVICE => true
  | _ => false

/-- `end_dt and end_dt < now_local`: the window is skipped. -/
def periodEndsBeforeNow (ap : ActivePeriod) (now : Int) : Bool :=
  match ap.end_ with
  | some e => decide (e < now)
  | none => false

/-- `start_dt and start_dt <= now_local and (end_dt is None or now_local <= end_dt)`. -/
def periodIsCurrent (ap : ActivePeriod) (now : Int) : Bool :=
  match ap.start with
  | none => false
  | some s => decide (s ≤ now) && (match ap.end_ with | none => true | some e => decide (now ≤ e))

/-- `start_dt and now_local < start_dt <= now_local + timedelta(days=7)`. -/
def periodIsUpcoming (ap : ActivePeriod) (now : Int) : Bool :=
  match ap.start with
  | none => false
  | some s => decide (now < s) && decide (s ≤ now + 7 * 86400)

/-- Step 1 of the classifier (src/bot.py lines 300-320): scan the active
periods carrying the `upcoming` flag; a current window returns immediately
(the `break`), an upcoming one sets the flag and continues. -/
def scanPeriods (now : Int) : List ActivePeriod → Bool → Bool × Bool
  | [], upcoming => (false, upcoming)
  | ap :: rest, upcoming =>
    if periodEndsBeforeNow ap now then scanPeriods now rest upcoming
    else if periodIsCurrent ap now then (true, upcoming)
    else if periodIsUpcoming ap now then scanPeriods now rest true
    else scanPeriods now rest upcoming

/-- Steps 1-2 of the classifier: structured windows when any are present,
otherwise the textual date fallback (`has_period` stays false only when the
`active_period` list is empty). -/
def alert_timing_flags (a : Alert) (now : Int) (today : Date) : Bool × Bool :=
  if a.active_period.isEmpty then fallbackFlags (alertFullText a) today
  else scanPeriods now a.active_period false

/-- `classify_alert_for_route` (src/bot.py lines 282-427).  `now` and `today`
stand for `datetime.now().astimezone()` and its `.date()`; `route_id` is
accepted and unused exactly as in the source. -/
def classify_alert_for_route (a : Alert) (route_id : String) (now : Int) (today : Date) :
    String :=
  let flags := alert_timing_flags a now today
  let is_closure := effectIsClosure a.effect || hasClosureWords a
  if flags.1 then (if is_closure then "closure" else "active")
  else if flags.2 then "upcoming"
  else "unknown"

/-- Label strings of `get_current_service_period` (src/bot.py lines 8-13). -/
def overnightLabel : String :=
  "<:ZSEQTA_ON_1:1439159264290799736><:ZSEQTA_ON_2:1439159305990439005><:ZSEQTA_ON_3:1439159360323588218> Overnight"

/-- Peak label. -/
def peakLabel : String :=
  "<:ZSEQTA_PP_1:1439091104145211433><:ZSEQTA_PP_2:1439091154950819950><:ZSEQTA_PP_3:1439091192745689088><:ZSEQTA_PP_4:1439091229420687512> Peak Period"

/-- Off-peak weekday label. -/
def offpeakWeekdayLabel : String :=
  "<:ZSEQTA_OP_1:1439160067181248523><:ZSEQTA_OP_2:1439160102505414770><:ZSEQTA_OP_3:1439160143681032203> Off-Peak Weekday"

/-- Off-peak evening label. -/
def offpeakEveningLabel : String :=
  "<:ZSEQTA_OP_1:1439160067181248523><:ZSEQTA_OP_2:1439160102505414770><:ZSEQTA_OP_3:1439160143681032203> Off-Peak Evening"

/-- NightLink label. -/
def nightlinkLabel : String :=
  "<:ZSEQTA_NL_1:1439053082863472733><:ZSEQTA_NL_2:1439053039112556584><:ZSEQTA_NL_3:1439052995005382937><:ZSEQTA_NL_4:1439052948981415986> NightLink Service Hours"

/-- Weekend label. -/
def weekendLabel : String :=
  "<:ZSEQTA_WN_1:1439162176979075132><:ZSEQTA_WN_2:1439162209744715818><:ZSEQTA_WN_3:1439162248403619883> Weekend"

/-- `get_current_service_period` (src/bot.py lines 1-51).  `wd` is
`weekday()` (Monday = 0 … Sunday = 6) and `minutes` is `hour * 60 + minute`
of the local time. -/
def get_current_service_period (wd minutes : Nat) : String :=
  if ((wd = 4 || wd = 5) && decide (23 * 60 + 51 ≤ minutes)) ||
     ((wd = 5 || wd = 6) && decide (minutes ≤ 6 * 60)) then nightlinkLabel
  else if wd = 5 || wd = 6 then
    if 6 * 60 + 1 ≤ minutes ∧ minutes ≤ 18 * 60 + 1 then weekendLabel
    else if wd = 6 then
      if 18 * 60 + 1 ≤ minutes ∧ minutes ≤ 22 * 60 then offpeakEveningLabel
      else if 22 * 60 + 1 ≤ minutes ∧ minutes ≤ 23 * 60 + 59 then overnightLabel
      else overnightLabel
    else
      if 18 * 60 + 1 ≤ minutes ∧ minutes ≤ 23 * 60 + 50 then offpeakEveningLabel
      else overnightLabel
  else
    if minutes ≤ 5 * 60 + 50 then overnightLabel
    else if 5 * 60 + 51 ≤ minutes ∧ minutes ≤ 9 * 60 then peakLabel
    else if 9 * 60 + 1 ≤ minutes ∧ minutes ≤ 14 * 60 + 50 then offpeakWeekdayLabel
    else if 14 * 60 + 51 ≤ minutes ∧ minutes ≤ 18 * 60 then peakLabel
    else if 18 * 60 + 1 ≤ minutes ∧ minutes ≤ 22 * 60 then offpeakEveningLabel
    else if 22 * 60 + 1 ≤ minutes ∧ minutes ≤ 23 * 60 + 59 then overnightLabel
    else overnightLabel

/-- Day of the week, the value of `date_obj.strftime("%A").lower()`. -/
inductive Weekday
  | monday | tuesday | wednesday | thursday | friday | saturday | sunday
deriving DecidableEq, Repr

/-- A row of `calendar.txt` loaded with `dtype=str`: day flags are the CSV
strings and the date range is a pair of `YYYYMMDD` strings. -/
structure CalendarRow where
  service_id : String
  monday : String
  tuesday : String
  wednesday : String
  thursday : String
  friday : String
  saturday : String
  sunday : String
  start_date : String
  end_date : String
deriving DecidableEq, Repr

/-- The `calendar[day_name]` column selection. -/
def dayFlag (r : CalendarRow) : Weekday → String
  | .monday => r.monday
  | .tuesday => r.tuesday
  | .wednesday => r.wednesday
  | .thursday => r.thursday
  | .friday => r.friday
  | .saturday => r.saturday
  | .sunday => r.sunday

/-- A row of `calendar_dates.txt` loaded with `dtype=str`. -/
structure CalendarDateRow where
  date : String
  service_id : String
  exception_type : String
deriving DecidableEq, Repr

/-- `get_service_ids_for_day` (src/track.py lines 419-441); `day` and
`dateStr` are the day name and `YYYYMMDD` rendering of `date_obj`.  The
Python function returns a set; the returned list carries the same
membership. -/
def get_service_ids_for_day (cal : List CalendarRow) (calDates : List CalendarDateRow)
    (day : Weekday) (dateStr : String) : List String :=
  let active := cal.filter (fun r => dayFlag r day = "1")
  let active := active.filter
    (fun r => pyStrLe r.start_date dateStr && pyStrLe dateStr r.end_date)
  let service_ids := active.map (fun r => r.service_id)
  let exceptions := calDates.filter (fun e => e.date = dateStr)
  let added := (exceptions.filter (fun e => e.exception_type = "1")).map
    (fun e => e.service_id)
  let removed := (exceptions.filter (fun e => e.exception_type = "2")).map
    (fun e => e.service_id)
  (service_ids ++ added).filter (fun s => !(removed.contains s))

/-- `LINE_KEYWORD_TO_TERMINI` (src/bot.py lines 147-164). -/
def LINE_KEYWORD_TO_TERMINI : List (String × List String) :=
  [("gold coast line", ["Varsity Lakes"]),
   ("gold coast lines", ["Varsity Lakes"]),
   ("shorncliffe line", ["Shorncliffe"]),
   ("shorncliffe lines", ["Shorncliffe"]),
   ("beenleigh line", ["Beenleigh"]),
   ("cleveland line", ["Cleveland"]),
   ("caboolture line", ["Caboolture"]),
   ("redcliffe peninsula line", ["Redcliffe"]),
   ("airport line", ["Airport"]),
   ("doomben line", ["Doomben"]),
   ("fern grove line", ["Ferny Grove"]),
   ("ferny grove line", ["Ferny Grove"]),
   ("ipswich line", ["Ipswich"]),
   ("rosewood line", ["Rosewood"]),
   ("sunshine coast line", ["Nambour", "Gympie North"]),
   ("nambour line", ["Nambour", "Gympie North"])]

/-- Status-line emojis of the terminus scan (src/bot.py lines 525, 577, 601). -/
def tickEmoji : String := "<:SEQTA_TICK:1439134843953877012>"

/-- Cross emoji set with an accepted closure. -/
def crossEmoji : String := "<:SEQTA_CROSS:1439135635905445978>"

/-- Warning emoji set with an upcoming incident. -/
def warnEmoji : String := "<:SEQTA_WARN:1439136797425668096>"

/-- The relevance guard of src/bot.py lines 552-574: terminus name verbatim in
the lowered alert text, or a configured line keyword mapping to this terminus,
or network-wide wording. -/
def relevanceGuard (terminus : String) (full_txt_lower : String) : Bool :=
  let matches_terminus_name := containsSub full_txt_lower (strLower terminus)
  let matches_line_keyword := LINE_KEYWORD_TO_TERMINI.any
    (fun kt => containsSub full_txt_lower kt.1 && kt.2.contains terminus)
  let network_wide := containsSub full_txt_lower "all lines" ||
    containsSub full_txt_lower "all train lines" ||
    containsSub full_txt_lower "entire network"
  matches_terminus_name || matches_line_keyword || network_wide

/-- `header or desc or f"... affecting route {rid}"` (src/bot.py line 582). -/
def reasonText (h d fallback : String) : String :=
  if h ≠ "" then h else if d ≠ "" then d else fallback

/-- Mutable state of the per-terminus scan: status string, emoji and the
collected closure reasons (the debug notice links are presentation-only and
omitted). -/
structure TermState where
  status : String
  emoji : String
  closure_reasons : List String
deriving DecidableEq, Repr

/-- Initial per-terminus state (src/bot.py lines 524-526). -/
def initTermState : TermState :=
  { status := "Operational", emoji := tickEmoji, closure_reasons := [] }

/-- The inner alert loop of the terminus scan (src/bot.py lines 530-629): an
accepted closure sets status `"Current issues"`, records the reason and
breaks; a rejected closure continues; an upcoming alert overwrites the status
unless it is `"Current closure"`. -/
def scanAlerts (terminus rid : String) (now : Int) (today : Date) :
    List Alert → TermState → TermState
  | [], st => st
  | a :: rest, st =>
    let cls := classify_alert_for_route a rid now today
    if cls = "closure" then
      let h := getText a.header_text
      let d := getText a.description_text
      let full_txt_lower := strLower (h ++ " " ++ d)
      if relevanceGuard terminus full_txt_lower then
        { status := "Current issues", emoji := crossEmoji,
          closure_reasons :=
            st.closure_reasons ++ [reasonText h d ("Closure affecting route " ++ rid)] }
      else scanAlerts terminus rid now today rest st
    else if cls = "upcoming" && st.status ≠ "Current closure" then
      scanAlerts terminus rid now today rest
        { st with status := "Upcoming closure", emoji := warnEmoji }
    else scanAlerts terminus rid now today rest st

/-- The outer route loop of the terminus scan (src/bot.py lines 528-632),
with its `if status == "Current closure": break` guard. -/
def scanRoutes (terminus : String) (now : Int) (today : Date) :
    List (String × List Alert) → TermState → TermState
  | [], st => st
  | (rid, alerts) :: rest, st =>
    let st2 := scanAlerts terminus rid now today alerts st
    if st2.status = "Current closure" then st2
    else scanRoutes terminus now today rest st2

/-- Status of one terminus given its associated routes and their alerts. -/
def terminusStatus (terminus : String) (routeAlerts : List (String × List Alert))
    (now : Int) (today : Date) : TermState :=
  scanRoutes terminus now today routeAlerts initTermState

/-- `list(dict.fromkeys(..))`: dedupe preserving first-seen order. -/
def dedupFirstAux (seen : List String) : List String → List String
  | [] => []
  | x :: xs =>
    if seen.contains x then dedupFirstAux seen xs
    else x :: dedupFirstAux (x :: seen) xs

/-- Deduplicated closure reasons. -/
def dedupFirst (l : List String) : List String := dedupFirstAux [] l

/-- The `closures_map` population guard (src/bot.py lines 634-637). -/
def closuresMapEntry (st : TermState) : Option (List String) :=
  if st.closure_reasons ≠ [] ∧ st.status = "Current closure" then
    some (dedupFirst st.closure_reasons)
  else none

/-- The services-section bucketing (src/bot.py lines 642-648). -/
def bucketOf (st : TermState) : String :=
  if st.status = "Current closure" then "closure_lines"
  else if st.status = "Upcoming Incident" then "upcoming_lines"
  else "operational_lines"

/-- One row of the `get_scheduled_departures` dataframe as consumed by
`get_next_services` (src/track.py lines 687-698). -/
structure SchedRow where
  trip_id : String
  stop_id : String
  arrival_dt : Int
  route_short_name : String
  trip_headsign : String
  route_color : String
  platform : String
deriving DecidableEq, Repr

/-- A value of the `scheduled_services` dict (src/track.py lines 690-698). -/
structure DepRecord where
  scheduled_time : Int
  eta_time : Int
  route_name : String
  destination : String
  is_realtime : Bool
  route_color : String
  platform : String
deriving DecidableEq, Repr

/-- The dict value built from one scheduled row. -/
def recOfRow (r : SchedRow) : DepRecord :=
  { scheduled_time := r.arrival_dt, eta_time := r.arrival_dt,
    route_name := r.route_short_name, destination := r.trip_headsign,
    is_realtime := false, route_color := r.route_color, platform := r.platform }

/-- `f"{trip_id}-{stop_id}"`. -/
def serviceKey (trip stop : String) : String := trip ++ "-" ++ stop

/-- Python dict assignment `m[k] = v`: overwrite in place, else append. -/
def dictUpsert (m : List (String × DepRecord)) (k : String) (v : DepRecord) :
    List (String × DepRecord) :=
  if m.any (fun kv => kv.1 = k) then
    m.map (fun kv => if kv.1 = k then (k, v) else kv)
  else m ++ [(k, v)]

/-- The `scheduled_services` dict built from the scheduled rows. -/
def buildScheduledDict (rows : List SchedRow) : List (String × DepRecord) :=
  rows.foldl (fun m r => dictUpsert m (serviceKey r.trip_id r.stop_id) (recOfRow r)) []

/-- A GTFS-RT `StopTimeUpdate`: `some t` is a present arrival/departure event
whose `.time` is `t` (`t` may be 0); `none` is an absent event, whose
`.time` reads as the protobuf default 0. -/
structure StopTimeUpdate where
  stop_id : String
  arrival : Option Int
  departure : Option Int
deriving DecidableEq, Repr

/-- A GTFS-RT trip update. -/
structure TripUpdate where
  trip_id : String
  stop_time_update : List StopTimeUpdate
deriving DecidableEq, Repr

/-- A feed entity; `none` models an entity without the `trip_update` field. -/
structure FeedEntity where
  trip_update : Option TripUpdate
deriving DecidableEq, Repr

/-- `stu.arrival.time if stu.HasField("arrival") else stu.departure.time`. -/
def stuTimestamp (stu : StopTimeUpdate) : Int :=
  match stu.arrival with
  | some t => t
  | none => match stu.departure with | some t => t | none => 0

/-- Processing of one stop-time update (src/track.py lines 720-729): only an
existing `(trip_id, stop_id)` key is touched, and only by a nonzero timestamp
not in the past; nothing is ever inserted. -/
def applyStu (now_utc : Int) (trip_id : String) (m : List (String × DepRecord))
    (stu : StopTimeUpdate) : List (String × DepRecord) :=
  let k := serviceKey trip_id stu.stop_id
  if m.any (fun kv => kv.1 = k) then
    let arrival_ts := stuTimestamp stu
    if arrival_ts ≠ 0 then
      if now_utc ≤ arrival_ts then
        m.map (fun kv =>
          if kv.1 = k then (k, { kv.2 with eta_time := arrival_ts, is_realtime := true })
          else kv)
      else m
    else m
  else m

/-- The realtime merge loop over the feed (src/track.py lines 717-729). -/
def applyFeed (now_utc : Int) (feed : List FeedEntity) (m : List (String × DepRecord)) :
    List (String × DepRecord) :=
  feed.foldl
    (fun m e =>
      match e.trip_update with
      | none => m
      | some tu => tu.stop_time_update.foldl (applyStu now_utc tu.trip_id) m)
    m

/-- Stable insertion into an eta-sorted list: the new element goes before the
first strictly-later element, after any equal one, which is the order Python's
stable `sorted(.., key=eta_time)` produces. -/
def insertByEta (x : DepRecord) : List DepRecord → List DepRecord
  | [] => [x]
  | y :: ys => if y.eta_time < x.eta_time then y :: insertByEta x ys else x :: y :: ys

/-- `sorted(list(scheduled_services.values()), key=lambda x: x["eta_time"])`. -/
def sortByEta (l : List DepRecord) : List DepRecord := l.foldr insertByEta []

/-- Python list slice `l[:k]` for an `int` bound: a negative bound drops
elements from the end. -/
def pySliceTo (l : List DepRecord) (k : Int) : List DepRecord :=
  if 0 ≤ k then l.take k.toNat else l.take (l.length - (-k).toNat)

/-- The reconciliation core of `get_next_services` (src/track.py lines
686-737): the scheduled dataframe rows, the parsed trip-update feed, the UTC
clock and the requested count are its inputs (stop-name resolution, fetching
and logging are I/O around it). -/
def get_next_services (rows : List SchedRow) (feed : List FeedEntity) (now_utc : Int)
    (service_count : Int) : List DepRecord :=
  let scheduled := buildScheduledDict rows
  let merged := applyFeed now_utc feed scheduled
  let upcoming := sortByEta (merged.map (fun kv => kv.2))
  pySliceTo upcoming service_count

/-- Equality of a departure record's baseline fields: everything the realtime
merge may not touch (only `eta_time` and `is_realtime` may change). -/
def StaticEq (v w : DepRecord) : Prop :=
  v.scheduled_time = w.scheduled_time ∧ v.route_name = w.route_name ∧
  v.destination = w.destination ∧ v.route_color = w.route_color ∧
  v.platform = w.platform

/-- Concrete alert: an active Gold Coast line track closure (window around
the evaluation instant 1000000). -/
def gcAlert : Alert :=
  { header_text := some ⟨[⟨"Gold Coast line track closure"⟩]⟩,
    description_text := none,
    active_period := [⟨some 999900, some 1000100⟩],
    effect := .UNKNOWN_EFFECT }

/-- Concrete alert: an active track closure naming the Central terminus. -/
def centralClosureAlert : Alert :=
  { header_text := some ⟨[⟨"Central track closure"⟩]⟩,
    description_text := none,
    active_period := [⟨some 999900, some 1000100⟩],
    effect := .UNKNOWN_EFFECT }

/-- Concrete alert: planned works starting about one day after 1000000. -/
def centralUpcomingAlert : Alert :=
  { header_text := some ⟨[⟨"Planned works at Central"⟩]⟩,
    description_text := none,
    active_period := [⟨some 1100000, some 1200000⟩],
    effect := .UNKNOWN_EFFECT }

/-- Concrete scheduled rows for the departure claims. -/
def schedRowA : SchedRow :=
  { trip_id := "t1", stop_id := "s1", arrival_dt := 10,
    route_short_name := "RN", trip_headsign := "City", route_color := "FFFFFF",
    platform := "1" }

/-- Second concrete scheduled row, later arrival, distinct key. -/
def schedRowB : SchedRow :=
  { trip_id := "t2", stop_id := "s1", arrival_dt := 20,
    route_short_name := "RN", trip_headsign := "Airport", route_color := "FFFFFF",
    platform := "2" }

/-- Concrete feed entity: one matching realtime update for `schedRowA`. -/
def feedEntA : FeedEntity :=
  { trip_update := some { trip_id := "t1", stop_time_update := [⟨"s1", some 15, none⟩] } }

/-- C1: For every alert, route id and evaluation time, the classifier returns
exactly one of the four labels unknown/active/upcoming/closure; the embedding
is total, with absent optional text fields reading as the empty string. -/
theorem classify_alert_total (a : Alert) (route_id : String) (now : Int) (today : Date) :
    classify_alert_for_route a route_id now today = "unknown" ∨
    classify_alert_for_route a route_id now today = "active" ∨
    classify_alert_for_route a route_id now today = "upcoming" ∨
    classify_alert_for_route a route_id now today = "closure" := by
  simp only [classify_alert_for_route]
  split_ifs <;> tauto

/-- C9: The service-period clock is total — every weekday/minute pair maps to
one of the six labels — and Friday 23:55 is NightLink, Saturday 10:00 Weekend,
Tuesday 07:00 Peak, Sunday 21:00 Off-Peak Evening, Sunday 22:30 Overnight. -/
theorem service_period_clock_spec :
    (∀ wd minutes : Nat,
      get_current_service_period wd minutes = overnightLabel ∨
      get_current_service_period wd minutes = peakLabel ∨
      get_current_service_period wd minutes = offpeakWeekdayLabel ∨
      get_current_service_period wd minutes = offpeakEveningLabel ∨
      get_current_service_period wd minutes = nightlinkLabel ∨
      get_current_service_period wd minutes = weekendLabel) ∧
    get_current_service_period 4 (23 * 60 + 55) = nightlinkLabel ∧
    get_current_service_period 5 (10 * 60) = weekendLabel ∧
    get_current_service_period 1 (7 * 60) = peakLabel ∧
    get_current_service_period 6 (21 * 60) = offpeakEveningLabel ∧
    get_current_service_period 6 (22 * 60 + 30) = overnightLabel := by
  refine ⟨fun wd minutes => ?_, rfl, rfl, rfl, rfl, rfl⟩
  unfold get_current_service_period
  split_ifs <;> tauto

/-- C2: A service id carrying a type-2 (removed) `calendar_dates` exception
for a date is never in the resolved service-id set for that date, whatever the
day-of-week flags, validity range and type-1 exceptions say. -/
theorem removed_service_excluded (cal : List CalendarRow)
    (calDates : List CalendarDateRow) (day : Weekday) (dateStr sid : String)
    (e : CalendarDateRow) (he : e ∈ calDates) (hdate : e.date = dateStr)
    (hsid : e.service_id = sid) (hty : e.exception_type = "2") :
    sid ∉ get_service_ids_for_day cal calDates day dateStr := by
  intro hmem
  unfold get_service_ids_for_day at hmem
  rw [List.mem_filter] at hmem
  obtain ⟨-, hnot⟩ := hmem
  rw [Bool.not_eq_true', List.contains_eq_any_beq] at hnot
  have hremoved : (((calDates.filter (fun e => e.date = dateStr)).filter
      (fun e => e.exception_type = "2")).map (fun e => e.service_id)).any
        (fun b => sid == b) = true := by
    rw [List.any_eq_true]
    refine ⟨sid, ?_, by simp⟩
    rw [List.mem_map]
    refine ⟨e, ?_, hsid⟩
    rw [List.mem_filter, List.mem_filter]
    exact ⟨⟨he, by simp [hdate]⟩, by simp [hty]⟩
  rw [hremoved] at hnot
  exact absurd hnot (by decide)

/-- Witness for C2: a service that is day-of-week active, inside its range,
and has both an added and a removed exception on the date, is excluded. -/
theorem removed_service_excluded_witness :
    (⟨"20250610", "S1", "2"⟩ : CalendarDateRow) ∈
      [(⟨"20250610", "S1", "1"⟩ : CalendarDateRow), ⟨"20250610", "S1", "2"⟩] ∧
    "S1" ∉ get_service_ids_for_day
      [⟨"S1", "1", "1", "1", "1", "1", "1", "1", "20250101", "20251231"⟩]
      [⟨"20250610", "S1", "1"⟩, ⟨"20250610", "S1", "2"⟩] Weekday.tuesday "20250610" :=
  ⟨by decide,
   removed_service_excluded _ _ _ _ _ ⟨"20250610", "S1", "2"⟩ (by decide) rfl rfl rfl⟩

/-- C3: The status scan does not make the first accepted closure final.  At
this input the closure alert on route r1 is classified closure, passes the
relevance guard ("central" occurs in the text) and is accepted — yet the
scan proceeds to route r2, whose merely upcoming alert overwrites the status,
because the accepted closure writes status "Current issues" while every
subsequent guard compares against "Current closure".  For the same reason the
terminus is never reported in the closure bucket nor in `closures_map`, even
when the closure alert is alone. -/
theorem status_scan_first_closure_not_final :
    scanRoutes "Central" 1000000 ⟨2025, 5, 20⟩
      [("r1", [centralClosureAlert])] initTermState =
      { status := "Current issues", emoji := crossEmoji,
        closure_reasons := ["Central track closure"] } ∧
    terminusStatus "Central"
      [("r1", [centralClosureAlert]), ("r2", [centralUpcomingAlert])] 1000000 ⟨2025, 5, 20⟩ =
      { status := "Upcoming closure", emoji := warnEmoji,
        closure_reasons := ["Central track closure"] } ∧
    closuresMapEntry (terminusStatus "Central"
      [("r1", [centralClosureAlert])] 1000000 ⟨2025, 5, 20⟩) = none ∧
    bucketOf (terminusStatus "Central"
      [("r1", [centralClosureAlert])] 1000000 ⟨2025, 5, 20⟩) = "operational_lines" := by
  decide

/-- C4: A closure-classified alert is applied to a terminus only when the
relevance guard accepts it (terminus name in the text, a configured line
keyword mapping to the terminus, or network-wide wording); concretely, the
active "Gold Coast line track closure" alert on a shared route id affects
Varsity Lakes (via the "gold coast line" keyword) while Airport stays
Operational. -/
theorem closure_relevance_guard :
    (∀ (terminus rid : String) (now : Int) (today : Date) (a : Alert)
       (rest : List Alert) (st : TermState),
      classify_alert_for_route a rid now today = "closure" →
      relevanceGuard terminus
        (strLower (getText a.header_text ++ " " ++ getText a.description_text)) = false →
      scanAlerts terminus rid now today (a :: rest) st =
        scanAlerts terminus rid now today rest st) ∧
    terminusStatus "Varsity Lakes" [("r1", [gcAlert])] 1000000 ⟨2025, 5, 20⟩ =
      { status := "Current issues", emoji := crossEmoji,
        closure_reasons := ["Gold Coast line track closure"] } ∧
    terminusStatus "Airport" [("r1", [gcAlert])] 1000000 ⟨2025, 5, 20⟩ =
      { status := "Operational", emoji := tickEmoji, closure_reasons := [] } := by
  refine ⟨fun terminus rid now today a rest st hcls hguard => ?_, by decide, by decide⟩
  simp only [scanAlerts, hcls, hguard]
  simp

/-- Witness for C4: the Gold Coast closure alert classifies as closure, fails
the guard for Airport, and is skipped there without touching the state. -/
theorem closure_relevance_guard_witness :
    classify_alert_for_route gcAlert "r1" 1000000 ⟨2025, 5, 20⟩ = "closure" ∧
    relevanceGuard "Airport"
      (strLower (getText gcAlert.header_text ++ " " ++
        getText gcAlert.description_text)) = false ∧
    scanAlerts "Airport" "r1" 1000000 ⟨2025, 5, 20⟩ [gcAlert] initTermState =
      scanAlerts "Airport" "r1" 1000000 ⟨2025, 5, 20⟩ [] initTermState :=
  ⟨by decide, by decide,
   closure_relevance_guard.1 "Airport" "r1" 1000000 ⟨2025, 5, 20⟩ gcAlert [] initTermState
     (by decide) (by decide)⟩

/-- C7: window-scan semantics — a window whose end is strictly past is
skipped; a window containing now (absent end = unbounded) returns active at
once; a window starting within 7 days marks upcoming and scanning continues;
and the carried upcoming flag never influences whether active is found, so a
later active window still wins. -/
theorem active_period_scan_spec :
    (∀ (ap : ActivePeriod) (rest : List ActivePeriod) (now e : Int) (up : Bool),
      ap.end_ = some e → e < now →
      scanPeriods now (ap :: rest) up = scanPeriods now rest up) ∧
    (∀ (ap : ActivePeriod) (rest : List ActivePeriod) (now s : Int) (up : Bool),
      ap.start = some s → s ≤ now → (∀ e, ap.end_ = some e → now ≤ e) →
      scanPeriods now (ap :: rest) up = (true, up)) ∧
    (∀ (ap : ActivePeriod) (rest : List ActivePeriod) (now s : Int) (up : Bool),
      ap.start = some s → now < s → s ≤ now + 7 * 86400 →
      (∀ e, ap.end_ = some e → now ≤ e) →
      scanPeriods now (ap :: rest) up = scanPeriods now rest true) ∧
    (∀ (aps : List ActivePeriod) (now : Int) (u v : Bool),
      (scanPeriods now aps u).1 = (scanPeriods now aps v).1) := by
  refine ⟨?_, ?_, ?_, ?_⟩
  · intro ap rest now e up hend hlt
    simp only [scanPeriods, periodEndsBeforeNow, hend]
    simp [hlt]
  · intro ap rest now s up hstart hle hend
    have hskip : periodEndsBeforeNow ap now = false := by
      unfold periodEndsBeforeNow
      cases he : ap.end_ with
      | none => rfl
      | some e => simpa using hend e he
    have hcur : periodIsCurrent ap now = true := by
      unfold periodIsCurrent
      rw [hstart]
      cases he : ap.end_ with
      | none => simp [hle]
      | some e => simp [hle, hend e he]
    simp [scanPeriods, hskip, hcur]
  · intro ap rest now s up hstart hlt hle hend
    have hskip : periodEndsBeforeNow ap now = false := by
      unfold periodEndsBeforeNow
      cases he : ap.end_ with
      | none => rfl
      | some e => simpa using hend e he
    have hcur : periodIsCurrent ap now = false := by
      unfold periodIsCurrent
      rw [hstart]
      simp
      omega
    have hup : periodIsUpcoming ap now = true := by
      unfold periodIsUpcoming
      rw [hstart]
      simp
      omega
    simp [scanPeriods, hskip, hcur, hup]
  · intro aps now u v
    induction aps generalizing u v with
    | nil => simp [scanPeriods]
    | cons ap rest ih =>
      simp only [scanPeriods]
      split_ifs
      · exact ih u v
      · rfl
      · rfl
      · exact ih u v

/-- Witness for C7: a past window is skipped, the next window only marks
upcoming, and the later current window still yields active (with the upcoming
flag preserved). -/
theorem active_period_scan_spec_witness :
    scanPeriods 1000 [⟨some 0, some 500⟩, ⟨some 2000, some 3000⟩, ⟨some 900, some 1100⟩]
      false = (true, true) :=
  (active_period_scan_spec.1 ⟨some 0, some 500⟩ _ 1000 500 false rfl (by decide)).trans
    ((active_period_scan_spec.2.2.1 ⟨some 2000, some 3000⟩ _ 1000 2000 false rfl
        (by decide) (by decide) (fun e he => by simp at he; omega)).trans
      (active_period_scan_spec.2.1 ⟨some 900, some 1100⟩ [] 1000 900 true rfl
        (by decide) (fun e he => by simp at he; omega)))

/-- C10: when an alert has any active-period window the textual fallback is
never consulted (the timing flags depend only on the windows), a window with
no start never marks active or upcoming, and an alert whose every window lacks
a start classifies as unknown regardless of its text and effect. -/
theorem windows_suppress_text_fallback :
    (∀ (a : Alert) (now : Int) (today : Date),
      a.active_period ≠ [] →
      alert_timing_flags a now today = scanPeriods now a.active_period false) ∧
    (∀ (aps : List ActivePeriod) (now : Int) (up : Bool),
      (∀ ap ∈ aps, ap.start = none) → scanPeriods now aps up = (false, up)) ∧
    (∀ (a : Alert) (rid : String) (now : Int) (today : Date),
      a.active_period ≠ [] → (∀ ap ∈ a.active_period, ap.start = none) →
      classify_alert_for_route a rid now today = "unknown") := by
  have hflags : ∀ (a : Alert) (now : Int) (today : Date),
      a.active_period ≠ [] →
      alert_timing_flags a now today = scanPeriods now a.active_period false := by
    intro a now today hne
    unfold alert_timing_flags
    rw [if_neg]
    simpa using hne
  have hnostart : ∀ (aps : List ActivePeriod) (now : Int) (up : Bool),
      (∀ ap ∈ aps, ap.start = none) → scanPeriods now aps up = (false, up) := by
    intro aps now up hall
    induction aps generalizing up with
    | nil => simp [scanPeriods]
    | cons ap rest ih =>
      have hap : ap.start = none := hall ap (List.mem_cons_self ap rest)
      have hrest : ∀ p ∈ rest, p.start = none := fun p hp => hall p (List.mem_cons_of_mem ap hp)
      have hcur : periodIsCurrent ap now = false := by
        unfold periodIsCurrent; rw [hap]
      have hup : periodIsUpcoming ap now = false := by
        unfold periodIsUpcoming; rw [hap]
      simp [scanPeriods, hcur, hup]
      exact ih up hrest
  refine ⟨hflags, hnostart, ?_⟩
  intro a rid now today hne hall
  have h1 := hflags a now today hne
  have h2 := hnostart a.active_period now false hall
  simp only [classify_alert_for_route, h1, h2]
  rfl

/-- Witness for C10: an alert whose single window has no start but a live end,
with closure wording, an explicit date and a closure effect, still classifies
as unknown. -/
theorem windows_suppress_text_fallback_witness :
    classify_alert_for_route
      { header_text := some ⟨[⟨"Track closure from 15 March 2030"⟩]⟩,
        description_text := none,
        active_period := [⟨none, some 2000000⟩],
        effect := .NO_SERVICE } "r1" 1000000 ⟨2025, 5, 20⟩ = "unknown" :=
  windows_suppress_text_fallback.2.2
    { header_text := some ⟨[⟨"Track closure from 15 March 2030"⟩]⟩,
      description_text := none,
      active_period := [⟨none, some 2000000⟩],
      effect := .NO_SERVICE } "r1" 1000000 ⟨2025, 5, 20⟩ (by decide)
    (by intro ap hap; simp at hap; rw [hap])

/-- C8: with no active-period windows the classification is exactly the
explicit-date fallback composed with the closure refinement; an omitted year
becomes the current year; and a parsed date more than 180 days in the past is
rolled forward one year (through `date.replace`, which can still fail). -/
theorem text_date_fallback_spec :
    (∀ (a : Alert) (rid : String) (now : Int) (today : Date),
      a.active_period = [] →
      classify_alert_for_route a rid now today =
        (match find_explicit_date (alertFullText a) today with
         | some ed =>
           if rataDie ed ≤ rataDie today then
             (if effectIsClosure a.effect || hasClosureWords a then "closure" else "active")
           else if rataDie ed ≤ rataDie today + 7 then "upcoming"
           else "unknown"
         | none => "unknown")) ∧
    (∀ (text : String) (today : Date) (day : Nat) (mtok : String),
      searchDatePattern text = some (day, mtok, none) →
      find_explicit_date text today =
        (match strptimeDate day mtok today.year with
         | none => none
         | some parsed =>
           if rataDie parsed + 180 < rataDie today then replaceYear parsed (parsed.year + 1)
           else some parsed)) ∧
    (∀ (text : String) (today : Date) (day : Nat) (mtok : String) (yOpt : Option Nat)
       (parsed : Date),
      searchDatePattern text = some (day, mtok, yOpt) →
      strptimeDate day mtok (yOpt.getD today.year) = some parsed →
      rataDie parsed + 180 < rataDie today →
      find_explicit_date text today = replaceYear parsed (parsed.year + 1)) := by
  refine ⟨?_, ?_, ?_⟩
  · intro a rid now today hap
    have hemp : a.active_period.isEmpty = true := by rw [hap]; rfl
    rcases hfd : find_explicit_date (alertFullText a) today with _ | ed
    · simp [classify_alert_for_route, alert_timing_flags, hemp, fallbackFlags, hfd]
    · by_cases h1 : rataDie ed ≤ rataDie today
      · simp [classify_alert_for_route, alert_timing_flags, hemp, fallbackFlags, hfd, h1]
      · by_cases h2 : rataDie ed ≤ rataDie today + 7
        · simp [classify_alert_for_route, alert_timing_flags, hemp, fallbackFlags, hfd, h1, h2]
        · simp [classify_alert_for_route, alert_timing_flags, hemp, fallbackFlags, hfd, h1, h2]
  · intro text today day mtok hsearch
    unfold find_explicit_date
    rw [hsearch]
    rfl
  · intro text today day mtok yOpt parsed hsearch hstrp hroll
    unfold find_explicit_date
    rw [hsearch]
    show (match strptimeDate day mtok (yOpt.getD today.year) with
          | none => none
          | some parsed =>
            if rataDie parsed + 180 < rataDie today then
              replaceYear parsed (parsed.year + 1)
            else some parsed) = replaceYear parsed (parsed.year + 1)
    rw [hstrp]
    show (if rataDie parsed + 180 < rataDie today then replaceYear parsed (parsed.year + 1)
          else some parsed) = replaceYear parsed (parsed.year + 1)
    rw [if_pos hroll]

/-- Witness for C8: a no-window alert with text "Buses replace trains from 2
January" evaluated on 30 December 2025 — the year defaults to 2025, the
parsed date 2 Jan 2025 is more than 180 days past, and it rolls to 2026. -/
theorem text_date_fallback_spec_witness :
    classify_alert_for_route
      { header_text := some ⟨[⟨"Buses replace trains from 2 January"⟩]⟩,
        description_text := none, active_period := [], effect := .UNKNOWN_EFFECT }
      "r1" 1000000 ⟨2025, 12, 30⟩ =
      (match find_explicit_date
          (alertFullText
            { header_text := some ⟨[⟨"Buses replace trains from 2 January"⟩]⟩,
              description_text := none, active_period := [], effect := .UNKNOWN_EFFECT })
          ⟨2025, 12, 30⟩ with
       | some ed =>
         if rataDie ed ≤ rataDie (⟨2025, 12, 30⟩ : Date) then
           (if effectIsClosure Effect.UNKNOWN_EFFECT ||
               hasClosureWords
                 { header_text := some ⟨[⟨"Buses replace trains from 2 January"⟩]⟩,
                   description_text := none, active_period := [],
                   effect := .UNKNOWN_EFFECT } then "closure" else "active")
         else if rataDie ed ≤ rataDie (⟨2025, 12, 30⟩ : Date) + 7 then "upcoming"
         else "unknown"
       | none => "unknown") ∧
    find_explicit_date "Buses replace trains from 2 January" ⟨2025, 12, 30⟩ =
      replaceYear ⟨2025, 1, 2⟩ (2025 + 1) :=
  ⟨text_date_fallback_spec.1
     { header_text := some ⟨[⟨"Buses replace trains from 2 January"⟩]⟩,
       description_text := none, active_period := [], effect := .UNKNOWN_EFFECT }
     "r1" 1000000 ⟨2025, 12, 30⟩ rfl,
   text_date_fallback_spec.2.2 "Buses replace trains from 2 January" ⟨2025, 12, 30⟩
     2 "January" none ⟨2025, 1, 2⟩ (by decide) (by decide) (by decide)⟩

/-- Membership through `insertByEta`. -/
theorem mem_insertByEta {x y : DepRecord} : ∀ {l : List DepRecord},
    y ∈ insertByEta x l ↔ y = x ∨ y ∈ l := by
  intro l
  induction l with
  | nil => simp [insertByEta]
  | cons z zs ih =>
    simp only [insertByEta]
    split_ifs
    · rw [List.mem_cons, ih]
      simp [List.mem_cons]
      tauto
    · simp [List.mem_cons]

/-- Sorting does not change membership. -/
theorem mem_sortByEta {y : DepRecord} : ∀ {l : List DepRecord},
    y ∈ sortByEta l ↔ y ∈ l := by
  intro l
  induction l with
  | nil => simp [sortByEta]
  | cons z zs ih =>
    rw [show sortByEta (z :: zs) = insertByEta z (sortByEta zs) from rfl, mem_insertByEta]
    rw [List.mem_cons, ih]

/-- Inserting into an eta-sorted list keeps it sorted. -/
theorem pairwise_insertByEta {x : DepRecord} : ∀ {l : List DepRecord},
    l.Pairwise (fun a b => a.eta_time ≤ b.eta_time) →
    (insertByEta x l).Pairwise (fun a b => a.eta_time ≤ b.eta_time) := by
  intro l
  induction l with
  | nil => intro _; simp [insertByEta]
  | cons z zs ih =>
    intro h
    rcases List.pairwise_cons.mp h with ⟨hz, hzs⟩
    simp only [insertByEta]
    split_ifs with hlt
    · rw [List.pairwise_cons]
      refine ⟨?_, ih hzs⟩
      intro b hb
      rcases mem_insertByEta.mp hb with rfl | hbz
      · omega
      · exact hz b hbz
    · rw [List.pairwise_cons]
      refine ⟨?_, h⟩
      intro b hb
      rcases List.mem_cons.mp hb with rfl | hbzs
      · omega
      · have := hz b hbzs
        omega

/-- `sortByEta` produces a non-decreasing list. -/
theorem sorted_sortByEta (l : List DepRecord) :
    (sortByEta l).Pairwise (fun a b => a.eta_time ≤ b.eta_time) := by
  induction l with
  | nil => simp [sortByEta]
  | cons z zs ih => exact pairwise_insertByEta ih

/-- Mapping a keyed in-place update preserves the key list. -/
theorem map_fst_update (k : String) (f : DepRecord → DepRecord)
    (m : List (String × DepRecord)) :
    (m.map (fun kv => if kv.1 = k then (k, f kv.2) else kv)).map (fun kv => kv.1) =
      m.map (fun kv => kv.1) := by
  induction m with
  | nil => rfl
  | cons kv rest ih =>
    simp only [List.map_cons, ih]
    by_cases hk : kv.1 = k
    · simp [hk]
    · simp [hk]

/-- One stop-time update never changes the key list. -/
theorem applyStu_keys (now : Int) (tid : String) (m : List (String × DepRecord))
    (stu : StopTimeUpdate) :
    (applyStu now tid m stu).map (fun kv => kv.1) = m.map (fun kv => kv.1) := by
  simp only [applyStu]
  split_ifs
  · exact map_fst_update (serviceKey tid stu.stop_id)
      (fun r => { scheduled_time := r.scheduled_time, eta_time := stuTimestamp stu,
                  route_name := r.route_name, destination := r.destination,
                  is_realtime := true, route_color := r.route_color,
                  platform := r.platform }) m
  · rfl
  · rfl
  · rfl

/-- Folding the stop-time updates never changes the key list. -/
theorem applyStuFold_keys (now : Int) (tid : String) (stus : List StopTimeUpdate) :
    ∀ m, ((stus.foldl (applyStu now tid) m).map (fun kv => kv.1)) =
      m.map (fun kv => kv.1) := by
  induction stus with
  | nil => intro m; rfl
  | cons stu rest ih =>
    intro m
    rw [List.foldl_cons, ih, applyStu_keys]

/-- The realtime merge never changes the key list. -/
theorem applyFeed_keys (now : Int) (feed : List FeedEntity) :
    ∀ m, (applyFeed now feed m).map (fun kv => kv.1) = m.map (fun kv => kv.1) := by
  induction feed with
  | nil => intro m; rfl
  | cons e rest ih =>
    intro m
    unfold applyFeed
    rw [List.foldl_cons]
    unfold applyFeed at ih
    rw [ih]
    cases htu : e.trip_update with
    | none => rfl
    | some tu => exact applyStuFold_keys now tu.trip_id tu.stop_time_update m

/-- `StaticEq` is reflexive. -/
theorem staticEq_refl (v : DepRecord) : StaticEq v v := ⟨rfl, rfl, rfl, rfl, rfl⟩

/-- `StaticEq` is transitive. -/
theorem staticEq_trans {a b c : DepRecord} (h1 : StaticEq a b) (h2 : StaticEq b c) :
    StaticEq a c := by
  obtain ⟨p1, p2, p3, p4, p5⟩ := h1
  obtain ⟨q1, q2, q3, q4, q5⟩ := h2
  exact ⟨p1.trans q1, p2.trans q2, p3.trans q3, p4.trans q4, p5.trans q5⟩

/-- Every entry after one stop-time update has an original entry with the
same baseline fields. -/
theorem applyStu_origin (now : Int) (tid : String) (m : List (String × DepRecord))
    (stu : StopTimeUpdate) :
    ∀ kv ∈ applyStu now tid m stu, ∃ kv0 ∈ m, StaticEq kv.2 kv0.2 := by
  simp only [applyStu]
  split_ifs
  · intro kv hkv
    rw [List.mem_map] at hkv
    obtain ⟨kv0, hkv0, hkveq⟩ := hkv
    refine ⟨kv0, hkv0, ?_⟩
    by_cases h : kv0.1 = serviceKey tid stu.stop_id
    · rw [if_pos h] at hkveq
      rw [← hkveq]
      exact ⟨rfl, rfl, rfl, rfl, rfl⟩
    · rw [if_neg h] at hkveq
      rw [← hkveq]
      exact staticEq_refl _
  · intro kv hkv; exact ⟨kv, hkv, staticEq_refl _⟩
  · intro kv hkv; exact ⟨kv, hkv, staticEq_refl _⟩
  · intro kv hkv; exact ⟨kv, hkv, staticEq_refl _⟩

/-- Baseline-field origin through the stop-time-update fold. -/
theorem applyStuFold_origin (now : Int) (tid : String) (stus : List StopTimeUpdate) :
    ∀ m, ∀ kv ∈ stus.foldl (applyStu now tid) m, ∃ kv0 ∈ m, StaticEq kv.2 kv0.2 := by
  induction stus with
  | nil => intro m kv hkv; exact ⟨kv, hkv, staticEq_refl _⟩
  | cons stu rest ih =>
    intro m kv hkv
    rw [List.foldl_cons] at hkv
    obtain ⟨kv1, hkv1, h1⟩ := ih (applyStu now tid m stu) kv hkv
    obtain ⟨kv0, hkv0, h0⟩ := applyStu_origin now tid m stu kv1 hkv1
    exact ⟨kv0, hkv0, staticEq_trans h1 h0⟩

/-- Baseline-field origin through the whole realtime merge. -/
theorem applyFeed_origin (now : Int) (feed : List FeedEntity) :
    ∀ m, ∀ kv ∈ applyFeed now feed m, ∃ kv0 ∈ m, StaticEq kv.2 kv0.2 := by
  induction feed with
  | nil => intro m kv hkv; exact ⟨kv, hkv, staticEq_refl _⟩
  | cons e rest ih =>
    intro m kv hkv
    unfold applyFeed at hkv
    rw [List.foldl_cons] at hkv
    unfold applyFeed at ih
    obtain ⟨kv1, hkv1, h1⟩ := ih _ kv hkv
    cases htu : e.trip_update with
    | none =>
      rw [htu] at hkv1
      exact ⟨kv1, hkv1, h1⟩
    | some tu =>
      rw [htu] at hkv1
      obtain ⟨kv0, hkv0, h0⟩ := applyStuFold_origin now tu.trip_id tu.stop_time_update m kv1 hkv1
      exact ⟨kv0, hkv0, staticEq_trans h1 h0⟩

/-- Every entry of a dict after an upsert is an old entry or carries the new
value. -/
theorem dictUpsert_origin (m : List (String × DepRecord)) (k : String) (v : DepRecord) :
    ∀ kv ∈ dictUpsert m k v, (∃ kv0 ∈ m, kv.2 = kv0.2) ∨ kv.2 = v := by
  unfold dictUpsert
  split_ifs
  · intro kv hkv
    rw [List.mem_map] at hkv
    obtain ⟨kv0, h0, heq⟩ := hkv
    by_cases h : kv0.1 = k
    · right; rw [if_pos h] at heq; rw [← heq]
    · left; rw [if_neg h] at heq; exact ⟨kv0, h0, by rw [← heq]⟩
  · intro kv hkv
    rw [List.mem_append] at hkv
    rcases hkv with h | h
    · left; exact ⟨kv, h, rfl⟩
    · right
      rw [List.mem_singleton] at h
      rw [h]

/-- Invariant transport through the scheduled-dict fold. -/
theorem buildDict_origin_aux (Q : DepRecord → Prop) :
    ∀ (rows : List SchedRow) (m : List (String × DepRecord)),
    (∀ kv ∈ m, Q kv.2) → (∀ r ∈ rows, Q (recOfRow r)) →
    ∀ kv ∈ rows.foldl
      (fun m r => dictUpsert m (serviceKey r.trip_id r.stop_id) (recOfRow r)) m,
      Q kv.2 := by
  intro rows
  induction rows with
  | nil => intro m hm _ kv hkv; exact hm kv hkv
  | cons r rest ih =>
    intro m hm hr kv hkv
    rw [List.foldl_cons] at hkv
    refine ih _ ?_ (fun r' h' => hr r' (List.mem_cons_of_mem r h')) kv hkv
    intro kv' hkv'
    rcases dictUpsert_origin m _ _ kv' hkv' with ⟨kv0, h0, heq⟩ | heq
    · rw [heq]; exact hm kv0 h0
    · rw [heq]; exact hr r (List.mem_cons_self r rest)

/-- Every value in the scheduled dict comes from a scheduled row. -/
theorem buildScheduledDict_origin (rows : List SchedRow) :
    ∀ kv ∈ buildScheduledDict rows, ∃ r ∈ rows, kv.2 = recOfRow r :=
  buildDict_origin_aux (fun v => ∃ r ∈ rows, v = recOfRow r) rows []
    (by intro kv hkv; simp at hkv) (fun r hr => ⟨r, hr, rfl⟩)

/-- A Python slice is a subset of the list. -/
theorem pySliceTo_subset (l : List DepRecord) (k : Int) :
    ∀ x ∈ pySliceTo l k, x ∈ l := by
  unfold pySliceTo
  split_ifs <;> intro x hx <;> exact List.take_subset _ _ hx

/-- C5: every record in the reconciled output originates from the scheduled
baseline — the realtime merge never creates a key, and every output record
agrees with some scheduled row on all baseline fields (only `eta_time` and
`is_realtime` may have been overwritten). -/
theorem reconcile_from_baseline_only :
    (∀ (now_utc : Int) (feed : List FeedEntity) (m : List (String × DepRecord)),
      (applyFeed now_utc feed m).map (fun kv => kv.1) = m.map (fun kv => kv.1)) ∧
    (∀ (rows : List SchedRow) (feed : List FeedEntity) (now_utc service_count : Int),
      ∀ rec ∈ get_next_services rows feed now_utc service_count,
      ∃ r ∈ rows, StaticEq rec (recOfRow r)) := by
  refine ⟨fun now feed m => applyFeed_keys now feed m, ?_⟩
  intro rows feed now count rec hrec
  unfold get_next_services at hrec
  have h1 := pySliceTo_subset _ _ rec hrec
  rw [mem_sortByEta] at h1
  rw [List.mem_map] at h1
  obtain ⟨kv, hkv, hrecEq⟩ := h1
  obtain ⟨kv0, hkv0, hstat⟩ := applyFeed_origin now feed _ kv hkv
  obtain ⟨r, hr, hv0⟩ := buildScheduledDict_origin rows kv0 hkv0
  refine ⟨r, hr, ?_⟩
  rw [← hrecEq, ← hv0]
  exact hstat

/-- Witness for C5: one scheduled row, one matching realtime update; the key
list is unchanged and the single output record originates from the row. -/
theorem reconcile_from_baseline_only_witness :
    ((applyFeed 12 [feedEntA] (buildScheduledDict [schedRowA])).map (fun kv => kv.1) =
      (buildScheduledDict [schedRowA]).map (fun kv => kv.1)) ∧
    ({ scheduled_time := 10, eta_time := 15, route_name := "RN", destination := "City",
       is_realtime := true, route_color := "FFFFFF", platform := "1" } : DepRecord) ∈
      get_next_services [schedRowA] [feedEntA] 12 5 ∧
    ∃ r ∈ [schedRowA],
      StaticEq
        { scheduled_time := 10, eta_time := 15, route_name := "RN", destination := "City",
          is_realtime := true, route_color := "FFFFFF", platform := "1" } (recOfRow r) :=
  ⟨reconcile_from_baseline_only.1 12 [feedEntA] (buildScheduledDict [schedRowA]),
   by decide,
   reconcile_from_baseline_only.2 [schedRowA] [feedEntA] 12 5
     { scheduled_time := 10, eta_time := 15, route_name := "RN", destination := "City",
       is_realtime := true, route_color := "FFFFFF", platform := "1" } (by decide)⟩

/-- Counterexample for C6 as frozen: `service_count` is a Python `int` and a
negative count slices from the end, so the output (here of length 1) is not
"at most the requested number of records". -/
theorem next_services_negative_count_cex :
    (get_next_services [schedRowA, schedRowB] [] 0 (-1)).length = 1 ∧
    ¬(((get_next_services [schedRowA, schedRowB] [] 0 (-1)).length : Int) ≤ -1) := by
  decide

/-- C6 (amended): for a non-negative requested count the output has at most
`service_count` records, and the output is always sorted non-decreasingly by
`eta_time`. -/
theorem next_services_count_sorted (rows : List SchedRow) (feed : List FeedEntity)
    (now_utc : Int) (service_count : Int) :
    (0 ≤ service_count →
      ((get_next_services rows feed now_utc service_count).length : Int) ≤ service_count) ∧
    (get_next_services rows feed now_utc service_count).Pairwise
      (fun a b => a.eta_time ≤ b.eta_time) := by
  constructor
  · intro hc
    unfold get_next_services pySliceTo
    rw [if_pos hc]
    simp only [List.length_take]
    have h2 := Int.toNat_of_nonneg hc
    omega
  · unfold get_next_services
    have hsorted := sorted_sortByEta
      ((applyFeed now_utc feed (buildScheduledDict rows)).map (fun kv => kv.2))
    unfold pySliceTo
    split_ifs <;> exact List.Pairwise.sublist (List.take_sublist _ _) hsorted

/-- Witness for C6: with requested count 1 the output length is at most 1 and
the output is sorted. -/
theorem next_services_count_sorted_witness :
    (((get_next_services [schedRowA, schedRowB] [] 0 1).length : Int) ≤ 1) ∧
    (get_next_services [schedRowA, schedRowB] [] 0 1).Pairwise
      (fun a b => a.eta_time ≤ b.eta_time) :=
  ⟨(next_services_count_sorted [schedRowA, schedRowB] [] 0 1).1 (by decide),
   (next_services_count_sorted [schedRowA, schedRowB] [] 0 1).2⟩
